import Mathlib

/-
Verification of csgo-update-watcher (main.go) against its specification.

Strings are modelled as lists of characters (all inputs of interest are
ASCII, so Go byte indexing and character indexing coincide). Go int
values are modelled as Int; the one place where the 64-bit width of the
platform int is observable is strconv.Atoi, whose range check is
modelled explicitly below, with the bounds written out as plain
integers. All other arithmetic the program performs (comparisons,
counters) stays far below the bound on every input considered here.
-/

abbrev GoStr := List Char

def str (s : String) : GoStr := s.toList

/-- Numeric value of an ASCII digit character. -/
def digitVal (c : Char) : Nat := c.toNat - 48

/-- Left fold interpreting a list of digit characters as a decimal numeral,
most significant digit first (the accumulation strconv.Atoi performs). -/
def digitsToNat (cs : GoStr) : Nat :=
  cs.foldl (fun acc c => acc * 10 + digitVal c) 0

def allDigits (cs : GoStr) : Bool := cs.all Char.isDigit

/-- Largest value of the 64-bit Go int, 2 ^ 63 - 1. -/
def maxGoInt : Int := 9223372036854775807

/-- Smallest value of the 64-bit Go int, -(2 ^ 63). -/
def minGoInt : Int := -9223372036854775808

/-- Embeds Go strconv.Atoi on a 64-bit platform. Go returns a pair
(value, err); we model this as (value, ok), ok = false meaning
strconv.Atoi returned an error. An optional leading + or - sign followed
by at least one digit is accepted, exactly as strconv.ParseInt base 10
does; anything else is a syntax error with the Go zero value 0 as the
returned value. A numeral outside the 64-bit int range is a range error
(ErrRange), for which ParseInt returns the nearest bound as the value:
maxGoInt when positive (magnitude above 2 ^ 63 - 1), minGoInt when
negative (magnitude above 2 ^ 63). -/
def atoi (cs : GoStr) : Int × Bool :=
  match cs with
  | [] => (0, false)
  | c :: rest =>
    if c = '+' then
      if allDigits rest && !rest.isEmpty then
        if (digitsToNat rest : Int) > maxGoInt then (maxGoInt, false)
        else ((digitsToNat rest : Int), true)
      else (0, false)
    else if c = '-' then
      if allDigits rest && !rest.isEmpty then
        if (digitsToNat rest : Int) > -minGoInt then (minGoInt, false)
        else (-(digitsToNat rest : Int), true)
      else (0, false)
    else if allDigits (c :: rest) then
      if (digitsToNat (c :: rest) : Int) > maxGoInt then (maxGoInt, false)
      else ((digitsToNat (c :: rest) : Int), true)
    else (0, false)

/-- Decimal digit character for a value below ten. -/
def digitCh (d : Nat) : Char :=
  if d = 0 then '0' else if d = 1 then '1' else if d = 2 then '2'
  else if d = 3 then '3' else if d = 4 then '4' else if d = 5 then '5'
  else if d = 6 then '6' else if d = 7 then '7' else if d = 8 then '8'
  else '9'

/-- Fuelled decimal rendering of a natural number, most significant digit
first. The fuel only bounds recursion depth; any fuel above n suffices. -/
def decimalRenderAux : Nat → Nat → GoStr
  | 0, _ => []
  | fuel + 1, n =>
    if n < 10 then [digitCh n]
    else decimalRenderAux fuel (n / 10) ++ [digitCh (n % 10)]

/-- Decimal rendering of a natural number as digit characters. -/
def decimalRender (n : Nat) : GoStr := decimalRenderAux (n + 1) n

/-- Embeds Go strconv.Itoa. -/
def itoa (i : Int) : GoStr :=
  if i < 0 then '-' :: decimalRender i.natAbs else decimalRender i.natAbs

/-- Outcome of the parse step shared by latestVersion and getImageBuildid. -/
inductive ParseResult where
  | ok (buildid : Int)
  | error
  | panicked
deriving DecidableEq, Repr

/-- Embeds the parse applied to the captured probe output in latestVersion
(main.go line 271) and getImageBuildid (main.go line 449):
buildid, err := strconv.Atoi(logs[:len(logs)-1]). When logs is empty the
Go slice expression logs[:len(logs)-1] is logs[:-1], which panics with a
slice-bounds-out-of-range runtime error; otherwise exactly the final
character is stripped and the remainder goes to strconv.Atoi. -/
def parseProbeOutput (logs : GoStr) : ParseResult :=
  if logs.isEmpty then ParseResult.panicked
  else
    let r := atoi logs.dropLast
    if r.2 then ParseResult.ok r.1 else ParseResult.error

/-- Parse stage of latestVersion (main.go lines 264-278), applied to the
stdout captured by a successful runScript call; a runScript failure
returns earlier with its own error and never reaches this parse. -/
def latestVersion (logs : GoStr) : ParseResult := parseProbeOutput logs

/-- Parse stage of getImageBuildid (main.go lines 443-455); identical to
the parse stage of latestVersion. -/
def getImageBuildid (logs : GoStr) : ParseResult := parseProbeOutput logs

/-- Accumulator of the tag scan in newestBuildVersion (main.go lines
289-313): the running maximum (initialised to -1, the Go literal used as
the absent sentinel) and the number of parse-failure warnings logged. -/
structure ScanState where
  largestBuildid : Int
  parseWarnings : Nat
deriving DecidableEq, Repr

/-- Per-tag body of the scan loop of newestBuildVersion (main.go lines
292-312). Mirrors the source exactly: tags no longer than the prefix are
skipped, tags whose head does not equal the prefix are skipped, the
remaining suffix goes through strconv.Atoi, a failed parse logs a warning
but does NOT skip the tag (there is no continue statement), so the Go
zero value 0 returned by the failed Atoi still takes part in the
largestBuildid comparison. -/
def scanTag (expectedPre : GoStr) (st : ScanState) (tag : GoStr) : ScanState :=
  if tag.length ≤ expectedPre.length then st
  else if tag.take expectedPre.length ≠ expectedPre then st
  else
    let suffix := tag.drop expectedPre.length
    let r := atoi suffix
    let st1 := if r.2 then st
               else { st with parseWarnings := st.parseWarnings + 1 }
    if st1.largestBuildid < r.1 then { st1 with largestBuildid := r.1 } else st1

/-- Embeds newestBuildVersion (main.go lines 281-316), the ImageTagLedger:
fold the scan over the flattened RepoTags listing of the Docker host,
starting from largestBuildid = -1. The expected prefix is literally
BaseImageName ++ ":buildid-" (main.go line 289). -/
def newestBuildVersion (baseImageName : GoStr) (repoTags : List GoStr) : ScanState :=
  repoTags.foldl (scanTag (baseImageName ++ str ":buildid-")) ⟨-1, 0⟩

/-- State of the Docker host as this program observes it: the flattened
image tag listing and a counter of build-API invocations. -/
structure DockerState where
  repoTags : List GoStr
  builds : Nat
deriving DecidableEq, Repr

/-- Embeds the success path of buildContainerAndPublish (main.go lines
320-368) over a reliable runtime: buildContainer adds the requested tag
and counts one build, ImageTag adds an alias tag, and getImageBuildid on
the temp image yields probedBuildid. Steps: build the temp preinstall
image tagged BaseImageName:temp-uuid, probe it for the installed buildid,
alias it to BaseImageName:preinstall-buildid-id, build the get5 variant
tagged BaseImageName:get5-buildid-id, and return (state, taggedImage,
buildid) where taggedImage is the value the source returns at line 367.
Each failing step instead returns early with an error and performs none
of the later steps; the claims below quantify over successful runs. -/
def buildContainerAndPublish (baseImageName uuid : GoStr) (probedBuildid : Int)
    (s : DockerState) : DockerState × GoStr × Int :=
  let tempTag := baseImageName ++ str ":temp-" ++ uuid
  let s1 : DockerState := ⟨tempTag :: s.repoTags, s.builds + 1⟩
  let buildid := probedBuildid
  let taggedImage := baseImageName ++ str ":preinstall-buildid-" ++ itoa buildid
  let s2 : DockerState := ⟨taggedImage :: s1.repoTags, s1.builds⟩
  let get5TaggedImage := baseImageName ++ str ":get5-buildid-" ++ itoa buildid
  let s3 : DockerState := ⟨get5TaggedImage :: s2.repoTags, s2.builds + 1⟩
  (s3, taggedImage, buildid)

/-- Embeds ensureBaseImage (main.go lines 371-410) over a reliable
runtime: ImageInspectWithRaw succeeds exactly when the tag is listed and
fails with a not-found error otherwise, and ImageBuild succeeds, adds the
requested tag and counts one build-API invocation. If the base tag is
present the function returns at line 384 without building; otherwise it
builds the base image tagged BaseImageName:base. -/
def ensureBaseImage (baseImageName : GoStr) (s : DockerState) : DockerState :=
  let tag := baseImageName ++ str ":base"
  if tag ∈ s.repoTags then s
  else ⟨tag :: s.repoTags, s.builds + 1⟩

/-- Outcome of one probe of latestVersion or newestBuildVersion as seen by
the watch loop. -/
inductive Probe where
  | ok (v : Int)
  | fail
deriving DecidableEq, Repr

/-- Environment of a single tick of watchAndBuild: the outcome of the
latestVersion probe, the outcome of the newestBuildVersion query, and
whether buildContainerAndPublish would succeed if invoked. -/
structure TickEnv where
  latest : Probe
  newest : Probe
  buildSucceeds : Bool
deriving DecidableEq, Repr

/-- Observable actions of one tick of watchAndBuild: whether the
announceNewVersion goroutine was dispatched, whether
buildContainerAndPublish was invoked, whether the ahead-of-upstream
warning was logged, and whether the loop body returned an error. -/
structure TickOutput where
  announceDispatched : Bool
  pipelineInvoked : Bool
  warned : Bool
  stop : Bool
deriving DecidableEq, Repr

/-- Embeds the body of the watch loop of watchAndBuild (main.go lines
156-199). A failed latestVersion or newestBuildVersion probe logs and
either returns the error (stopOnError) or skips the rest of the tick.
With both probes succeeding, newestV < latestV dispatches the
announcement goroutine and invokes the pipeline (a pipeline failure again
returns iff stopOnError); newestV > latestV only logs a warning; equal
values do nothing. -/
def runTick (stopOnError : Bool) (env : TickEnv) : TickOutput :=
  match env.latest with
  | Probe.fail => ⟨false, false, false, stopOnError⟩
  | Probe.ok latestV =>
    match env.newest with
    | Probe.fail => ⟨false, false, false, stopOnError⟩
    | Probe.ok newestV =>
      if newestV < latestV then
        if env.buildSucceeds then ⟨true, true, false, false⟩
        else ⟨true, true, false, stopOnError⟩
      else if latestV < newestV then ⟨false, false, true, false⟩
      else ⟨false, false, false, false⟩

/-- True when some step of the tick fails: a probe fails, or a build is
needed and fails. -/
def tickFails (env : TickEnv) : Bool :=
  match env.latest with
  | Probe.fail => true
  | Probe.ok latestV =>
    match env.newest with
    | Probe.fail => true
    | Probe.ok newestV => decide (newestV < latestV) && !env.buildSucceeds

/-- Embeds watchAndBuild (main.go lines 154-203) over a finite trace of
tick environments: the loop runs the body on each tick in order and
returns true exactly when some tick returned an error (terminating the
loop there); the real loop ticks forever and never exits normally. -/
def watchAndBuild (stopOnError : Bool) : List TickEnv → Bool
  | [] => false
  | env :: rest =>
    if (runTick stopOnError env).stop then true
    else watchAndBuild stopOnError rest

/-- Result of runScript (main.go lines 205-261). -/
inductive RunScriptResult where
  | ok (logs : GoStr)
  | error
deriving DecidableEq, Repr

/-- Outcomes of the Docker API calls runScript performs, in program
order: container create, container start, container wait, the log
collection sequence (ContainerLogs, StdCopy demultiplex, ReadAll), the
captured stdout, and container remove. -/
structure ProbeWorld where
  createOk : Bool
  startOk : Bool
  waitOk : Bool
  logsOk : Bool
  logs : GoStr
  removeOk : Bool
deriving DecidableEq, Repr

/-- What runScript did: its returned result, and whether ContainerRemove
was invoked. -/
structure RunScriptOutcome where
  result : RunScriptResult
  removeAttempted : Bool
deriving DecidableEq, Repr

/-- Embeds runScript (main.go lines 205-261): each failing Docker call
returns an error immediately; ContainerRemove is reached exactly when the
logs were collected, and a ContainerRemove failure is returned as an
error by runScript itself (main.go lines 256-258), discarding the
collected logs. -/
def runScript (w : ProbeWorld) : RunScriptOutcome :=
  if !w.createOk then ⟨RunScriptResult.error, false⟩
  else if !w.startOk then ⟨RunScriptResult.error, false⟩
  else if !w.waitOk then ⟨RunScriptResult.error, false⟩
  else if !w.logsOk then ⟨RunScriptResult.error, false⟩
  else if !w.removeOk then ⟨RunScriptResult.error, true⟩
  else ⟨RunScriptResult.ok w.logs, true⟩

/-- Docker state reached by the run of buildContainerAndPublish used as
the failing input of the round-trip claim: namespace csgo, a host that
held only the base image, and a probed buildid of 500. -/
def c1RunState : DockerState :=
  (buildContainerAndPublish (str "csgo") (str "u") 500 ⟨[str "csgo:base"], 1⟩).1

-- Helper lemmas --------------------------------------------------------

theorem digitsToNat_concat (xs : GoStr) (c : Char) :
    digitsToNat (xs ++ [c]) = digitsToNat xs * 10 + digitVal c := by
  unfold digitsToNat
  rw [List.foldl_append]
  rfl

theorem digitCh_spec (d : Nat) (h : d < 10) :
    (digitCh d).isDigit = true ∧ digitVal (digitCh d) = d := by
  interval_cases d <;> exact ⟨by decide, by decide⟩

theorem decimalRenderAux_spec (fuel : Nat) :
    ∀ n, n < fuel →
      decimalRenderAux fuel n ≠ [] ∧
      allDigits (decimalRenderAux fuel n) = true ∧
      digitsToNat (decimalRenderAux fuel n) = n := by
  induction fuel with
  | zero => intro n h; omega
  | succ f ih =>
    intro n h
    by_cases h10 : n < 10
    · have hd := digitCh_spec n h10
      refine ⟨by simp [decimalRenderAux, h10], ?_, ?_⟩
      · simp [decimalRenderAux, h10, allDigits, hd.1]
      · simp [decimalRenderAux, h10, digitsToNat, hd.2]
    · have hdiv : n / 10 < f := by
        have h2 : n / 10 < n := Nat.div_lt_self (by omega) (by omega)
        omega
      obtain ⟨ne, ad, val⟩ := ih (n / 10) hdiv
      have heq : decimalRenderAux (f + 1) n =
          decimalRenderAux f (n / 10) ++ [digitCh (n % 10)] := by
        simp [decimalRenderAux, h10]
      have hd := digitCh_spec (n % 10) (by omega)
      refine ⟨by simp [heq], ?_, ?_⟩
      · rw [heq]
        unfold allDigits at ad ⊢
        simp [List.all_append, ad, hd.1]
      · rw [heq, digitsToNat_concat, val, hd.2]
        omega

theorem decimalRender_spec (n : Nat) :
    decimalRender n ≠ [] ∧ allDigits (decimalRender n) = true ∧
    digitsToNat (decimalRender n) = n :=
  decimalRenderAux_spec (n + 1) n (Nat.lt_succ_self n)

theorem atoi_digits (cs : GoStr) (h1 : cs ≠ []) (h2 : allDigits cs = true)
    (h3 : (digitsToNat cs : Int) ≤ maxGoInt) :
    atoi cs = ((digitsToNat cs : Int), true) := by
  cases cs with
  | nil => exact absurd rfl h1
  | cons c rest =>
    have hc : c.isDigit = true := by
      have hall := List.all_eq_true.mp h2
      exact hall c (List.mem_cons_self c rest)
    have hplus : c ≠ '+' := by
      intro hh; rw [hh] at hc; exact absurd hc (by decide)
    have hminus : c ≠ '-' := by
      intro hh; rw [hh] at hc; exact absurd hc (by decide)
    have h4 : ¬ ((digitsToNat (c :: rest) : Int) > maxGoInt) := by omega
    unfold atoi
    simp [hplus, hminus, h2, h4]

theorem dropLast_append_single (xs : GoStr) (c : Char) :
    (xs ++ [c]).dropLast = xs := by
  simp

theorem isEmpty_append_single (xs : GoStr) (c : Char) :
    (xs ++ [c]).isEmpty = false := by
  cases xs <;> rfl

theorem scanTag_short (p : GoStr) (st : ScanState) (tag : GoStr)
    (h : tag.length ≤ p.length) : scanTag p st tag = st := by
  unfold scanTag
  rw [if_pos h]

theorem runTick_false_stop (env : TickEnv) : (runTick false env).stop = false := by
  obtain ⟨la, ne, b⟩ := env
  cases la with
  | fail => rfl
  | ok latestV =>
    cases ne with
    | fail => rfl
    | ok newestV =>
      simp only [runTick]
      split
      · cases b <;> rfl
      · split <;> rfl

theorem runTick_true_stop (env : TickEnv) (h : tickFails env = true) :
    (runTick true env).stop = true := by
  obtain ⟨la, ne, b⟩ := env
  cases la with
  | fail => rfl
  | ok latestV =>
    cases ne with
    | fail => rfl
    | ok newestV =>
      simp only [tickFails, Bool.and_eq_true, decide_eq_true_eq,
        Bool.not_eq_true'] at h
      simp only [runTick, if_pos h.1, h.2]
      rfl

theorem watchAndBuild_false_never_stops (trace : List TickEnv) :
    watchAndBuild false trace = false := by
  induction trace with
  | nil => rfl
  | cons env rest ih =>
    simp only [watchAndBuild, runTick_false_stop, ih]
    rfl

-- Claim theorems -------------------------------------------------------

/-- C1. The claimed pipeline/ledger round trip is broken in the code: a
successful buildContainerAndPublish run with buildid 500 creates the tags
csgo:preinstall-buildid-500 and csgo:get5-buildid-500, yet
newestBuildVersion scans for the prefix csgo:buildid-, which matches
neither, so it still reports the absent sentinel -1, and the next tick
(upstream probe again 500, ledger -1) invokes the pipeline again and
dispatches the announcement again. -/
theorem pipeline_ledger_roundTrip_broken :
    (buildContainerAndPublish (str "csgo") (str "u") 500 ⟨[str "csgo:base"], 1⟩).2.2 = 500 ∧
    str "csgo:preinstall-buildid-500" ∈ c1RunState.repoTags ∧
    str "csgo:get5-buildid-500" ∈ c1RunState.repoTags ∧
    (newestBuildVersion (str "csgo") c1RunState.repoTags).largestBuildid = -1 ∧
    (runTick false ⟨Probe.ok 500,
      Probe.ok (newestBuildVersion (str "csgo") c1RunState.repoTags).largestBuildid,
      true⟩).pipelineInvoked = true ∧
    (runTick false ⟨Probe.ok 500,
      Probe.ok (newestBuildVersion (str "csgo") c1RunState.repoTags).largestBuildid,
      true⟩).announceDispatched = true := by
  decide

/-- C2. Divergence of newestBuildVersion from the claim: on an empty
listing the absent sentinel is -1, but a single tag with a matching
prefix and the non-numeric suffix 123abc does alter the returned maximum:
the failed strconv.Atoi leaves the Go zero value 0, which wins the
comparison against -1, so the scan returns 0 instead of the sentinel
(conflating absent with build 0); the warning counter confirms the parse
failure was hit. -/
theorem newestBuildVersion_malformed_suffix_divergence :
    (newestBuildVersion (str "ns") []).largestBuildid = -1 ∧
    (newestBuildVersion (str "ns") [str "ns:buildid-123abc"]).largestBuildid = 0 ∧
    (newestBuildVersion (str "ns") [str "ns:buildid-123abc"]).parseWarnings = 1 := by
  decide

/-- C3 counterexample. At n = 2 ^ 63 = 9223372036854775808, whose decimal
rendering followed by one newline is a well-formed single-line output,
strconv.Atoi reports a range error (the numeral exceeds the 64-bit
platform int), so latestVersion returns a parse error, not the
identifier n: the claim fails for this n. -/
theorem latestVersion_overflow_counterexample :
    decimalRender (2 ^ 63) = str "9223372036854775808" ∧
    latestVersion (str "9223372036854775808\n") = ParseResult.error := by
  decide

/-- C3 amended. For every natural number n representable in the 64-bit
platform int (n below 2 ^ 63), a captured probe output consisting of the
decimal rendering of n followed by exactly one newline is parsed by
latestVersion and by getImageBuildid to exactly n, with no error. -/
theorem latestVersion_parses_wellformed (n : Nat) (hn : n < 2 ^ 63) :
    latestVersion (decimalRender n ++ ['\n']) = ParseResult.ok (n : Int) ∧
    getImageBuildid (decimalRender n ++ ['\n']) = ParseResult.ok (n : Int) := by
  obtain ⟨ne, ad, val⟩ := decimalRender_spec n
  have hb : (digitsToNat (decimalRender n) : Int) ≤ maxGoInt := by
    rw [val]
    unfold maxGoInt
    omega
  have h : parseProbeOutput (decimalRender n ++ ['\n']) = ParseResult.ok (n : Int) := by
    unfold parseProbeOutput
    rw [isEmpty_append_single, dropLast_append_single, atoi_digits _ ne ad hb, val]
    rfl
  exact ⟨h, h⟩

/-- Witness for the amended C3 at n = 42. -/
theorem latestVersion_parses_wellformed_witness :
    latestVersion (decimalRender 42 ++ ['\n']) = ParseResult.ok 42 :=
  (latestVersion_parses_wellformed 42 (by decide)).1

/-- C4. Divergence of the probe parse from the claim on malformed
outputs: empty captured output makes the Go slice expression panic
instead of returning a parse error; the negative output -5 followed by a
newline is accepted and yields -5 instead of a parse error; the signed
output +5 is accepted and silently coerced to 5; and an output missing
the line terminator, such as 42, silently loses its last digit and yields
4 instead of a parse error. -/
theorem latestVersion_malformed_divergence :
    latestVersion (str "") = ParseResult.panicked ∧
    latestVersion (str "-5\n") = ParseResult.ok (-5) ∧
    latestVersion (str "+5\n") = ParseResult.ok 5 ∧
    latestVersion (str "42") = ParseResult.ok 4 := by
  decide

/-- C5. On a tick where both probes succeed, with upstream value u and
local value l: if l < u the tick dispatches the announcement and invokes
the pipeline and logs no warning; if u < l it only logs the warning,
invoking neither pipeline nor announcement and never stopping; if u = l
the tick performs no action at all. -/
theorem watchTick_version_comparison (stopOnError : Bool) (env : TickEnv)
    (u l : Int) (hu : env.latest = Probe.ok u) (hl : env.newest = Probe.ok l) :
    (l < u → runTick stopOnError env =
      ⟨true, true, false, !env.buildSucceeds && stopOnError⟩) ∧
    (u < l → runTick stopOnError env = ⟨false, false, true, false⟩) ∧
    (u = l → runTick stopOnError env = ⟨false, false, false, false⟩) := by
  obtain ⟨la, ne, b⟩ := env
  simp only at hu hl
  subst hu; subst hl
  refine ⟨fun h => ?_, fun h => ?_, fun h => ?_⟩
  · simp only [runTick, if_pos h]
    cases b <;> simp
  · have h2 : ¬ l < u := by omega
    simp [runTick, h, h2]
  · subst h
    simp [runTick]

/-- Witness for C5 at upstream 5, local 3, with a succeeding build. -/
theorem watchTick_version_comparison_witness :
    runTick false ⟨Probe.ok 5, Probe.ok 3, true⟩ = ⟨true, true, false, false⟩ := by
  have h := (watchTick_version_comparison false ⟨Probe.ok 5, Probe.ok 3, true⟩
    5 3 rfl rfl).1 (by decide)
  simpa using h

/-- C6 counterexample. At namespace ns and probed buildid 7 the value
returned by buildContainerAndPublish is not the get5 variant tag: it is
ns:preinstall-buildid-7, not ns:get5-buildid-7. -/
theorem buildContainerAndPublish_returns_preinstall_tag :
    (buildContainerAndPublish (str "ns") (str "u") 7 ⟨[], 0⟩).2.1 ≠
      str "ns:get5-buildid-7" := by
  decide

/-- C6 amended. For every successful run of buildContainerAndPublish the
returned tag is the first-stage promoted tag
baseImageName:preinstall-buildid-id together with the buildid; the
second-stage variant baseImageName:get5-buildid-id is built and tagged
(it appears in the listing) but is not the returned value. -/
theorem buildContainerAndPublish_final_tag (baseImageName uuid : GoStr)
    (buildid : Int) (s : DockerState) :
    (buildContainerAndPublish baseImageName uuid buildid s).2.1 =
      baseImageName ++ str ":preinstall-buildid-" ++ itoa buildid ∧
    (buildContainerAndPublish baseImageName uuid buildid s).2.2 = buildid ∧
    baseImageName ++ str ":get5-buildid-" ++ itoa buildid ∈
      (buildContainerAndPublish baseImageName uuid buildid s).1.repoTags ∧
    baseImageName ++ str ":preinstall-buildid-" ++ itoa buildid ∈
      (buildContainerAndPublish baseImageName uuid buildid s).1.repoTags := by
  refine ⟨rfl, rfl, ?_, ?_⟩ <;> simp [buildContainerAndPublish]

/-- C7. ensureBaseImage is idempotent: when the base tag is already
listed it is a no-op (same state, no build), and across two consecutive
calls the build API is invoked exactly once when the base tag was absent
initially and zero times when it was present. -/
theorem ensureBaseImage_idempotent (baseImageName : GoStr) (s : DockerState) :
    (baseImageName ++ str ":base" ∈ s.repoTags → ensureBaseImage baseImageName s = s) ∧
    (ensureBaseImage baseImageName (ensureBaseImage baseImageName s)).builds =
      s.builds + (if baseImageName ++ str ":base" ∈ s.repoTags then 0 else 1) := by
  constructor
  · intro h
    simp [ensureBaseImage, h]
  · by_cases h : baseImageName ++ str ":base" ∈ s.repoTags
    · simp [ensureBaseImage, h]
    · simp [ensureBaseImage, h]

/-- Witness for C7: with ns:base already listed, ensureBaseImage leaves
the state unchanged. -/
theorem ensureBaseImage_idempotent_witness :
    ensureBaseImage (str "ns") ⟨[str "ns:base"], 0⟩ = ⟨[str "ns:base"], 0⟩ :=
  (ensureBaseImage_idempotent (str "ns") ⟨[str "ns:base"], 0⟩).1 (by decide)

/-- C8 counterexample. With create, start, wait and log collection all
succeeding but ContainerRemove failing, runScript returns an error: the
removal failure is escalated to the caller (and the collected logs are
discarded), contradicting the claim that it is only logged. The removal
was attempted after log collection. -/
theorem runScript_remove_failure_escalates :
    (runScript ⟨true, true, true, true, str "42\n", false⟩).result =
      RunScriptResult.error ∧
    (runScript ⟨true, true, true, true, str "42\n", false⟩).removeAttempted = true := by
  decide

/-- C8 amended. ContainerRemove is attempted exactly when the logs were
collected — independently of the content of the logs, hence also when the
subsequent parse fails — but a removal failure is escalated: runScript
returns an error to its caller instead of only logging it; when removal
succeeds the collected logs are returned. -/
theorem runScript_cleanup (w : ProbeWorld) :
    ((runScript w).removeAttempted = true ↔
      (w.createOk = true ∧ w.startOk = true ∧ w.waitOk = true ∧ w.logsOk = true)) ∧
    (w.createOk = true → w.startOk = true → w.waitOk = true → w.logsOk = true →
      w.removeOk = false → (runScript w).result = RunScriptResult.error) ∧
    (w.createOk = true → w.startOk = true → w.waitOk = true → w.logsOk = true →
      w.removeOk = true → (runScript w).result = RunScriptResult.ok w.logs) := by
  obtain ⟨c, st, wa, lo, logs, rm⟩ := w
  cases c <;> cases st <;> cases wa <;> cases lo <;> cases rm <;>
    simp [runScript]

/-- Witness for C8: with every Docker call succeeding, runScript returns
the collected logs. -/
theorem runScript_cleanup_witness :
    (runScript ⟨true, true, true, true, str "7\n", true⟩).result =
      RunScriptResult.ok (str "7\n") :=
  (runScript_cleanup ⟨true, true, true, true, str "7\n", true⟩).2.2
    rfl rfl rfl rfl rfl

/-- C9. On a tick where a probe or build step fails: with stopOnError set
the loop terminates right there with the error; with stopOnError unset
the tick does not stop, the loop proceeds to the next tick, and over any
trace whatsoever the loop never terminates due to a failure. -/
theorem watchAndBuild_stopOnError (env : TickEnv) (rest : List TickEnv)
    (h : tickFails env = true) :
    watchAndBuild true (env :: rest) = true ∧
    (runTick false env).stop = false ∧
    watchAndBuild false (env :: rest) = watchAndBuild false rest ∧
    (∀ trace : List TickEnv, watchAndBuild false trace = false) := by
  refine ⟨?_, runTick_false_stop env, ?_, watchAndBuild_false_never_stops⟩
  · simp [watchAndBuild, runTick_true_stop env h]
  · simp [watchAndBuild, runTick_false_stop env]

/-- Witness for C9 at a tick whose upstream probe fails. -/
theorem watchAndBuild_stopOnError_witness :
    watchAndBuild true [⟨Probe.fail, Probe.fail, true⟩] = true :=
  (watchAndBuild_stopOnError ⟨Probe.fail, Probe.fail, true⟩ [] (by decide)).1

/-- C10. Every listed tag whose length is at most the length of the scan
prefix baseImageName:buildid- is skipped by the length guard before any
parsing: removing such a tag from the listing changes neither the
returned maximum nor the parse-warning count. -/
theorem newestBuildVersion_skips_short (baseImageName tag : GoStr)
    (pre post : List GoStr)
    (h : tag.length ≤ (baseImageName ++ str ":buildid-").length) :
    newestBuildVersion baseImageName (pre ++ tag :: post) =
      newestBuildVersion baseImageName (pre ++ post) := by
  unfold newestBuildVersion
  rw [List.foldl_append, List.foldl_append, List.foldl_cons,
    scanTag_short _ _ _ h]

/-- Witness for C10: the bare prefix tag ns:buildid- with empty suffix
does not affect the scan. -/
theorem newestBuildVersion_skips_short_witness :
    newestBuildVersion (str "ns") ([] ++ str "ns:buildid-" :: [str "ns:buildid-7"]) =
      newestBuildVersion (str "ns") ([] ++ [str "ns:buildid-7"]) :=
  newestBuildVersion_skips_short (str "ns") (str "ns:buildid-")
    [] [str "ns:buildid-7"] (by decide)
